import Mathlib

/-!
Verification of the GENCODE ingestion converter
(`generation_framework/gencode/gencode.py`) of ubkg-jkg-generation.

Strings are modelled as `List Char` (`Str`).  Python's `str.split(sep)` on a
single-character separator, `str.strip()`, and `str.replace(c, '')` are
embedded as `pySplit`, `pyStrip` and `removeQuotes`.  Pandas `NaN` /
missing-value cells (normalised to `''` by `df.replace(np.nan, '')` in
`main`) are modelled as the empty string for text columns and as `Option`
for the numeric Entrez column.  Fallible steps (a pandas column rename
that raises `ValueError`, `str.join` over a `NaN`, `list[1]` raising
`IndexError`, a missing prerequisite file) are modelled with
`Except` / `Option`.
-/

set_option maxHeartbeats 1000000

abbrev Str := List Char

/-- Python `s.split(sep)` for a one-character separator: splits on every
occurrence of the separator, keeping empty pieces; `''.split(sep) = ['']`. -/
def pySplit (sep : Char) : Str → List Str
  | [] => [[]]
  | c :: rest =>
    if c = sep then [] :: pySplit sep rest
    else
      match pySplit sep rest with
      | [] => [[c]]
      | r :: rs => (c :: r) :: rs

/-- Python `s.strip()`: drop leading and trailing whitespace. -/
def pyStrip (s : Str) : Str :=
  ((s.dropWhile Char.isWhitespace).reverse.dropWhile Char.isWhitespace).reverse

/-- The double-quote character (written via its code point). -/
def quoteChar : Char := Char.ofNat 34

/-- Python `s.replace('"', '')` (gencode.py line 282). -/
def removeQuotes (s : Str) : Str := s.filter (fun c => c ≠ quoteChar)

/-- Python `','.join(values)`. -/
def joinComma (vs : List Str) : Str := List.intercalate [','] vs

/-! ## AttributeColumnDecoder: embedding of `build_annotation_dataframe`'s
column-9 decode (`split_column9_level1` + `build_key_value_column`).

A decoded table is `List (List (Option Str))`: one inner list per source row,
holding the row's level-1 slots; `none` is a pandas `NaN` cell (an empty or
`None` slot, or padding past the row's last slot). -/

/-- The literal `'None'` token normalised to `NaN` (gencode.py line 167). -/
def NoneLit : Str := "None".data

/-- Normalisation applied to one level-1 slot: strip, then map `''` and
`'None'` to `NaN` (gencode.py lines 162-167). -/
def normSlot (s0 : Str) : Option Str :=
  let s := pyStrip s0
  if s = [] then none else if s = NoneLit then none else some s

/-- Level-1 split of one row's attribute column: remove quotes (line 282),
split on the `;` delimiter and normalise each slot (`split_column9_level1`). -/
def rowSlots (attr : Str) : List (Option Str) :=
  (pySplit ';' (removeQuotes attr)).map normSlot

/-- Number of positional level-1 columns of the split table (pandas `expand`:
the maximum slot count over all rows). -/
def numCols (tbl : List (List (Option Str))) : Nat :=
  tbl.foldr (fun r m => max r.length m) 0

/-- The cell of row `i` at positional column `j` (`NaN` when the row is
shorter than `j`). -/
def cellAt (tbl : List (List (Option Str))) (i j : Nat) : Option Str :=
  ((tbl.get? i).getD []).getD j none

/-- A positional column survives `dropna(axis=1, how='all')` (line 170) iff
some row has a non-`NaN` cell there. -/
def keptCol (tbl : List (List (Option Str))) (j : Nat) : Bool :=
  tbl.any (fun r => (r.getD j none).isSome)

/-- The positional columns iterated by `build_key_value_column`, in order. -/
def keptCols (tbl : List (List (Option Str))) : List Nat :=
  (List.range (numCols tbl)).filter (keptCol tbl)

/-- Level-2 split of one slot: `str.split(' ', expand=True)` followed by
`str.strip` of every part (gencode.py line 114). -/
def partsOf (s : Str) : List Str := (pySplit ' ' s).map pyStrip

/-- Width of the level-2 expansion of column `j` (pandas `expand`: max part
count over the column's non-`NaN` cells).  The rename to `['key', 'value']`
on line 117 raises `ValueError` unless this is exactly 2. -/
def colWidth (tbl : List (List (Option Str))) (j : Nat) : Nat :=
  tbl.foldr
    (fun r m =>
      max (match r.getD j none with | some s => (partsOf s).length | none => 0) m) 0

/-- The `key` field of a slot (first level-2 part). -/
def keyOf (s : Str) : Str := (partsOf s).headI

/-- The `value` field of a slot (second level-2 part; `NaN` when absent). -/
def valOf (s : Str) : Option Str := (partsOf s).get? 1

/-- Filter of line 122: a cell matches when its key equals the search key;
the payload is the cell's `value` field. -/
def matchVal (key : Str) (c : Option Str) : Option (Option Str) :=
  match c with
  | some s => if keyOf s = key then some (valOf s) else none
  | none => none

/-- The `(row_ordinal, value)` matches contributed by positional column `j`
(the per-column DataFrame appended to `listval`, lines 114-126). -/
def colMatches (key : Str) (tbl : List (List (Option Str))) (j : Nat) :
    List (Nat × Option Str) :=
  (List.range tbl.length).filterMap
    (fun i => (matchVal key (cellAt tbl i j)).map (fun v => (i, v)))

/-- `pd.concat(listval)` (line 130): all matches, column-major. -/
def allMatches (key : Str) (tbl : List (List (Option Str))) :
    List (Nat × Option Str) :=
  ((keptCols tbl).map (colMatches key tbl)).flatten

/-- `groupby('rows').agg(','.join)` for row `i` (line 135): the values of row
`i`'s matches, in the order they occur in the concatenated match list. -/
def consolidate (ms : List (Nat × Option Str)) (i : Nat) : Option Str :=
  let vals := (ms.filter (fun p => p.1 = i)).filterMap (fun p => p.2)
  if vals = [] then none else some (joinComma vals)

/-- `build_key_value_column` for one search key over the whole table:
`Except.error` models the run aborting (the `ValueError` from renaming a
level-2 expansion whose width is not 2, or the `TypeError` from
`','.join` meeting a `NaN` value). -/
def build_key_value_column (key : Str) (rows : List Str) :
    Except Unit (List (Option Str)) :=
  if (keptCols (rows.map rowSlots)).all
      (fun j => colWidth (rows.map rowSlots) j = 2) then
    if (allMatches key (rows.map rowSlots)).all (fun p => p.2.isSome) then
      Except.ok ((List.range (rows.map rowSlots).length).map
        (consolidate (allMatches key (rows.map rowSlots))))
    else Except.error ()
  else Except.error ()

/-- Row-local reference semantics (the spec's wording): the values appearing
for `key` in a row's original attribute string, in slot order. -/
def rowKeyValues (key : Str) (attr : Str) : List Str :=
  (rowSlots attr).filterMap (fun c => (matchVal key c).bind id)

/-! ## TripleEmitter: embedding of `write_edges_file` / `write_nodes_file`.

A `Row` is one record of the translated annotation DataFrame handed to the
writers by `main` (after `df.replace(np.nan, '')`): text columns hold `''`
for a missing value; the numeric Entrez cross-reference is `Option Int`
(`none` for a missing value); the genomic coordinates are integers. -/

structure Row where
  feature_type : Str
  gene_id : Str
  transcript_id : Str
  gene_name : Str
  transcript_name : Str
  chromosome_name : Str
  gene_type : Str
  transcript_type : Str
  genomic_strand : Str
  ont : Str
  hgnc_id : Str
  Entrez_Gene_id : Option Int
  RefSeq_RNA_id : Str
  RefSeq_protein_id : Str
  UNIPROTKB_SwissProt_AN : Str
  UNIPROTKB_TrEMBL_AN : Str
  genomic_start_location : Int
  genomic_end_location : Int
deriving DecidableEq, Repr

/-- One row of the GENCODE_VS `OWLNETS_node_metadata.txt` lookup table
(only the two columns `write_edges_file` reads). -/
structure VocabNode where
  node_id : Str
  node_label : Str
deriving DecidableEq, Repr

/-- One line of `OWLNETS_edgelist.txt` (after the header). -/
structure Edge where
  subject : Str
  predicate : Str
  object : Str
deriving DecidableEq, Repr

/-- One line of `OWLNETS_node_metadata.txt`, fields in column order:
`node_id, node_namespace, node_label, node_definition, node_synonyms,
node_dbxrefs, value, lowerbound, upperbound, unit`. -/
structure NodeRow where
  node_id : Str
  node_namespace : Str
  node_label : Str
  node_definition : Str
  node_synonyms : Str
  node_dbxrefs : Str
  value : Str
  lowerbound : Str
  upperbound : Str
  unit : Str
deriving DecidableEq, Repr

/-- Python `str(int(n))` for an integer-valued cell. -/
def intToStr (n : Int) : Str := (toString n).data

/-- Worker for `dedupBy` carrying the set of keys already seen. -/
def dedupByGo {α β : Type} [DecidableEq β] (f : α → β) (seen : List β) :
    List α → List α
  | [] => []
  | r :: rest =>
    if f r ∈ seen then dedupByGo f seen rest
    else r :: dedupByGo f (f r :: seen) rest

/-- pandas `drop_duplicates(subset=[k])`: keep the first row for each key. -/
def dedupBy {α β : Type} [DecidableEq β] (f : α → β) (l : List α) : List α :=
  dedupByGo f [] l

/-- Traversal that fails (Python exception) when the function fails on any
element, mirroring a row loop that raises mid-iteration. -/
def mapOpt {α β : Type} (f : α → Option β) : List α → Option (List β)
  | [] => some []
  | a :: l =>
    match f a with
    | none => none
    | some b => (mapOpt f l).map (fun bs => b :: bs)

def RO_transcribed_from : Str := "http://purl.obolibrary.org/obo/RO_0002510".data

def RO_has_gene_product : Str := "http://purl.obolibrary.org/obo/RO_0002205".data

def RO_located_in : Str := "http://purl.obolibrary.org/obo/RO_0001025".data

def RO_has_directional_form : Str := "http://purl.obolibrary.org/obo/RO_0004048".data

/-- `stripped_ensembl_id` (gencode.py lines 390-393): `ensembl.split('.')[0]`
(total: a Python split always has a first element). -/
def stripped_ensembl_id (ensembl : Str) : Str := (pySplit '.' ensembl).headI

/-- `get_ensembl_version` (lines 396-399): `ensembl.split('.')[1]`; `none`
models the `IndexError` raised when the ID has no dot. -/
def get_ensembl_version (ensembl : Str) : Option Str :=
  (pySplit '.' ensembl).get? 1

/-- The GENCODE_VS lookup used throughout the feature pass:
`df.loc[df['node_label'] == label, 'node_id']` with the `.shape[0] > 0`
guard and `.iat[0]` first-match extraction (first matching row wins). -/
def vsLookup (vocab : List VocabNode) (label : Str) : Option Str :=
  ((vocab.filter (fun n => n.node_label = label)).head?).map VocabNode.node_id

/-- One lookup-guarded edge write: emitted only when the vocabulary lookup
succeeds and yields a nonempty `node_id` (the `if obj != ''` guard). -/
def lookupEdge (vocab : List VocabNode) (subj predname label : Str) : List Edge :=
  match vsLookup vocab label with
  | some obj => if obj ≠ [] then [⟨subj, predname, obj⟩] else []
  | none => []

/-- `df[df['feature_type'] == 'transcript'].drop_duplicates(subset=['transcript_id'])`
(lines 440-441 and 585-586). -/
def dftranscript (df : List Row) : List Row :=
  dedupBy Row.transcript_id (df.filter (fun r => r.feature_type = "transcript".data))

/-- `df[df['feature_type'] == 'gene'].drop_duplicates(subset=['gene_id'])`
(lines 581-582). -/
def dfgene (df : List Row) : List Row :=
  dedupBy Row.gene_id (df.filter (fun r => r.feature_type = "gene".data))

/-- Transcript-scope assertions (lines 444-462): `transcribed_from` always,
`has_gene_product` per nonempty UniProt field (note the source emits the
SwissProt object under the literal namespace `UNINPROTKB:`). -/
def transcriptRowEdges (row : Row) : List Edge :=
  ⟨"ENSEMBL:".data ++ stripped_ensembl_id row.transcript_id, RO_transcribed_from,
    "ENSEMBL:".data ++ stripped_ensembl_id row.gene_id⟩ ::
  ((if row.UNIPROTKB_SwissProt_AN ≠ [] then
      [⟨"ENSEMBL:".data ++ stripped_ensembl_id row.transcript_id,
        RO_has_gene_product, "UNINPROTKB:".data ++ row.UNIPROTKB_SwissProt_AN⟩]
    else []) ++
   (if row.UNIPROTKB_TrEMBL_AN ≠ [] then
      [⟨"ENSEMBL:".data ++ stripped_ensembl_id row.transcript_id,
        RO_has_gene_product, "UNIPROTKB:".data ++ row.UNIPROTKB_TrEMBL_AN⟩]
    else []))

/-- The subject CURIE of the feature pass (lines 470-473). -/
def featureSubject (row : Row) : Str :=
  if row.transcript_id ≠ [] then
    "ENSEMBL:".data ++ stripped_ensembl_id row.transcript_id
  else
    "ENSEMBL:".data ++ stripped_ensembl_id row.gene_id

/-- Feature-scope assertions for one row (lines 466-555), sub-rule blocks in
source order: located_in, is_feature_type, is_gene_biotype,
is_transcript_biotype, has-directional-form, subClassOf (one edge per
comma-separated `ont` entry, emitted verbatim), has_refSeq_ID (RNA then
protein, emitted verbatim). -/
def featureRowEdges (vocab : List VocabNode) (row : Row) : List Edge :=
  lookupEdge vocab (featureSubject row) RO_located_in row.chromosome_name ++
  lookupEdge vocab (featureSubject row) ("is_feature_type".data) row.feature_type ++
  (if row.gene_type ≠ [] then
      lookupEdge vocab (featureSubject row) ("is_gene_biotype".data) row.gene_type
    else []) ++
  (if row.transcript_type ≠ [] then
      lookupEdge vocab (featureSubject row) ("is_transcript_biotype".data)
        row.transcript_type
    else []) ++
  (if (if row.genomic_strand = "+".data then "positive".data
       else if row.genomic_strand = "-".data then "negative".data else []) ≠ [] then
      lookupEdge vocab (featureSubject row) RO_has_directional_form
        (if row.genomic_strand = "+".data then "positive".data
         else if row.genomic_strand = "-".data then "negative".data else [])
    else []) ++
  (if pyStrip row.ont ≠ [] then
      (pySplit ',' row.ont).map
        (fun pgo => ⟨featureSubject row, "subClassOf".data, pgo⟩)
    else []) ++
  (if row.RefSeq_RNA_id ≠ [] then
      [⟨featureSubject row, "has_refSeq_ID".data,
        "REFSEQ:".data ++ row.RefSeq_RNA_id⟩]
    else []) ++
  (if row.RefSeq_protein_id ≠ [] then
      [⟨featureSubject row, "has_refSeq_ID".data,
        "REFSEQ:".data ++ row.RefSeq_protein_id⟩]
    else [])

/-- All data rows written to `OWLNETS_edgelist.txt`, in write order: the
transcript pass over deduplicated transcripts, then the feature pass over
every row. -/
def edgeRows (vocab : List VocabNode) (df : List Row) : List Edge :=
  ((dftranscript df).map transcriptRowEdges).flatten ++
  (df.map (featureRowEdges vocab)).flatten

/-- Gene node (lines 600-630); fails (`IndexError`) when the gene ID carries
no dotted version. -/
def mkGeneNode (row : Row) : Option NodeRow :=
  (get_ensembl_version row.gene_id).map (fun v =>
    ⟨"ENSEMBL:".data ++ stripped_ensembl_id row.gene_id, "GENCODE".data,
      pyStrip row.gene_name, [], [],
      (if row.hgnc_id ≠ [] then row.hgnc_id else []), v,
      intToStr row.genomic_start_location, intToStr row.genomic_end_location, []⟩)

/-- Transcript node (lines 636-651); fails when the transcript ID carries no
dotted version. -/
def mkTranscriptNode (row : Row) : Option NodeRow :=
  (get_ensembl_version row.transcript_id).map (fun v =>
    ⟨"ENSEMBL:".data ++ stripped_ensembl_id row.transcript_id, "GENCODE".data,
      row.transcript_name, [], [], [], v,
      intToStr row.genomic_start_location, intToStr row.genomic_end_location, []⟩)

/-- Entrez gene node (lines 660-674). -/
def mkEntrezNode (row : Row) : Option NodeRow :=
  row.Entrez_Gene_id.map (fun e =>
    ⟨"ENTREZ:".data ++ intToStr e, "GENCODE".data, row.gene_name, [], [],
      row.hgnc_id, [],
      intToStr row.genomic_start_location, intToStr row.genomic_end_location, []⟩)

/-- RefSeq RNA node (lines 681-694). -/
def mkRefSeqRnaNode (row : Row) : NodeRow :=
  ⟨"REFSEQ:".data ++ row.RefSeq_RNA_id, "GENCODE".data, row.RefSeq_RNA_id,
    [], [], [], [], [], [], []⟩

/-- RefSeq protein node (lines 701-714). -/
def mkRefSeqProteinNode (row : Row) : NodeRow :=
  ⟨"REFSEQ:".data ++ row.RefSeq_protein_id, "GENCODE".data, row.RefSeq_protein_id,
    [], [], [], [], [], [], []⟩

/-- The gene-node section of the node table. -/
def geneNodes (df : List Row) : Option (List NodeRow) :=
  mapOpt mkGeneNode (dfgene df)

/-- The transcript-node section of the node table. -/
def transcriptNodes (df : List Row) : Option (List NodeRow) :=
  mapOpt mkTranscriptNode (dftranscript df)

/-- The Entrez-node section (lines 658-659): nonempty Entrez IDs of the
deduplicated transcripts, deduplicated by Entrez ID. -/
def entrezNodes (df : List Row) : Option (List NodeRow) :=
  mapOpt mkEntrezNode
    (dedupBy Row.Entrez_Gene_id
      ((dftranscript df).filter (fun r => r.Entrez_Gene_id.isSome)))

/-- The RefSeq-RNA-node section (lines 679-680). -/
def refseqRnaNodes (df : List Row) : List NodeRow :=
  (dedupBy Row.RefSeq_RNA_id (df.filter (fun r => r.RefSeq_RNA_id ≠ []))).map
    mkRefSeqRnaNode

/-- The RefSeq-protein-node section (lines 699-700); note the source filters
on `RefSeq_RNA_id != ''` here as well. -/
def refseqProteinNodes (df : List Row) : List NodeRow :=
  (dedupBy Row.RefSeq_protein_id (df.filter (fun r => r.RefSeq_RNA_id ≠ []))).map
    mkRefSeqProteinNode

/-- All data rows written to `OWLNETS_node_metadata.txt`, in write order;
`none` models the writer raising mid-run (`IndexError` on an unversioned
Ensembl ID). -/
def write_nodes_file (df : List Row) : Option (List NodeRow) :=
  (geneNodes df).bind (fun gs =>
    (transcriptNodes df).bind (fun ts =>
      (entrezNodes df).map (fun es =>
        gs ++ ts ++ es ++ refseqRnaNodes df ++ refseqProteinNodes df)))

def TAB : Str := ['\t']

def NL : Str := ['\n']

/-- The bytes of `OWLNETS_edgelist.txt` (header plus one line per edge). -/
def renderEdges (es : List Edge) : Str :=
  "subject".data ++ TAB ++ "predicate".data ++ TAB ++ "object".data ++ NL ++
  (es.map (fun e => e.subject ++ TAB ++ e.predicate ++ TAB ++ e.object ++ NL)).flatten

/-- The bytes of `OWLNETS_node_metadata.txt`. -/
def renderNodes (ns : List NodeRow) : Str :=
  "node_id".data ++ TAB ++ "node_namespace".data ++ TAB ++ "node_label".data ++
    TAB ++ "node_definition".data ++ TAB ++ "node_synonyms".data ++ TAB ++
    "node_dbxrefs".data ++ TAB ++ "value".data ++ TAB ++ "lowerbound".data ++
    TAB ++ "upperbound".data ++ TAB ++ "unit".data ++ NL ++
  (ns.map (fun n => n.node_id ++ TAB ++ n.node_namespace ++ TAB ++ n.node_label
    ++ TAB ++ n.node_definition ++ TAB ++ n.node_synonyms ++ TAB ++
    n.node_dbxrefs ++ TAB ++ n.value ++ TAB ++ n.lowerbound ++ TAB ++
    n.upperbound ++ TAB ++ n.unit ++ NL)).flatten

/-- The diagnostic logged by `get_gencode_vs` (lines 784-786). -/
def gencode_vs_missing_msg : Str :=
  ("GENCODE depends on the prior ingestion of information from the GENCODE_VS SAB. Run .build_csv.sh for GENCODE_VS prior to running it for GENCODE.").data

/-- `get_gencode_vs` (lines 766-787).  Modelled from the spec: the backing
reader `ubkg_extract.read_csv_with_progress_bar` is repository code outside
`src/`; per the spec it materialises the prior ingestion's node table and a
missing backing file surfaces as `FileNotFoundError`, modelled here by the
argument being `none`.  The handler then logs the diagnostic and calls
`exit(1)`, modelled as `Except.error (1, msg)`. -/
def get_gencode_vs (vsfile : Option (List VocabNode)) :
    Except (Int × Str) (List VocabNode) :=
  match vsfile with
  | some vs => Except.ok vs
  | none => Except.error (1, gencode_vs_missing_msg)

/-- `write_edges_file` (lines 401-557): reads GENCODE_VS (before opening the
output file), then writes header and edges; the result is the file's bytes
or the fatal exit. -/
def write_edges_file (vsfile : Option (List VocabNode)) (df : List Row) :
    Except (Int × Str) Str :=
  match get_gencode_vs vsfile with
  | Except.error e => Except.error e
  | Except.ok vocab => Except.ok (renderEdges (edgeRows vocab df))

/-- The tail of `main` (lines 833-837): edge file then node file, as pure
outputs of the annotation table and the GENCODE_VS table. -/
def run_outputs (vsfile : Option (List VocabNode)) (df : List Row) :
    Except (Int × Str) (Str × Option Str) :=
  match write_edges_file vsfile df with
  | Except.error e => Except.error e
  | Except.ok edges => Except.ok (edges, (write_nodes_file df).map renderNodes)

/-- `needle` matches the front of the second argument. -/
def headMatches : Str → Str → Bool
  | [], _ => true
  | _ :: _, [] => false
  | a :: as, b :: bs => decide (a = b) && headMatches as bs

/-- `needle` occurs somewhere in the haystack (Python `in` for strings,
restricted to nonempty needles). -/
def containsStr (needle : Str) : Str → Bool
  | [] => decide (needle = [])
  | c :: rest => headMatches needle (c :: rest) || containsStr needle rest

/-! ## Concrete inputs used by counterexamples and witnesses -/

/-- A row with every text field empty, no Entrez ID and zero coordinates. -/
def blankRow : Row :=
  ⟨[], [], [], [], [], [], [], [], [], [], [], none, [], [], [], [], 0, 0⟩

/-- A transcript row carrying a versioned RefSeq RNA accession. -/
def c1row : Row := { blankRow with
  feature_type := "transcript".data
  transcript_id := "T1.1".data
  gene_id := "G1.1".data
  RefSeq_RNA_id := "NM_1.2".data }

/-- A gene row realising the spec's `ENSG1.2` exemplar. -/
def c1geneRow : Row := { blankRow with
  feature_type := "gene".data
  gene_id := "ENSG1.2".data
  gene_name := "GN".data
  genomic_start_location := 5
  genomic_end_location := 9 }

/-- A transcript row with a SwissProt cross-reference. -/
def c2row : Row := { blankRow with
  feature_type := "transcript".data
  transcript_id := "T1.1".data
  gene_id := "G1.1".data
  chromosome_name := "chr1".data
  UNIPROTKB_SwissProt_AN := "P1".data
  genomic_start_location := 5
  genomic_end_location := 9 }

/-- A one-entry GENCODE_VS table resolving the chromosome label `chr1`. -/
def c2vocab : List VocabNode := [⟨"GENCODEVS:C1".data, "chr1".data⟩]

/-- First of two transcript rows sharing gene_id `G1`. -/
def c7t1 : Row := { blankRow with
  feature_type := "transcript".data
  transcript_id := "T1.1".data
  gene_id := "G1".data
  transcript_name := "tn1".data }

/-- Second of two transcript rows sharing gene_id `G1`. -/
def c7t2 : Row := { blankRow with
  feature_type := "transcript".data
  transcript_id := "T2.1".data
  gene_id := "G1".data
  transcript_name := "tn2".data }

/-- A gene row for `G1` (versioned, as node emission requires). -/
def c7g : Row := { blankRow with
  feature_type := "gene".data
  gene_id := "G1.5".data
  gene_name := "g1".data }

/-- A gene row whose Ensembl ID carries no dotted version. -/
def c10row : Row := { blankRow with
  feature_type := "gene".data
  gene_id := "G1".data }

theorem pySplit_ne_nil (sep : Char) (s : Str) : pySplit sep s ≠ [] := by
  induction s with
  | nil => simp [pySplit]
  | cons c rest ih =>
    simp only [pySplit]
    split
    · simp
    · cases h : pySplit sep rest with
      | nil => simp
      | cons r rs => simp

/-- Splitting a string that does not contain the separator yields the
singleton list holding the whole string. -/
theorem pySplit_not_mem {sep : Char} {s : Str} (h : sep ∉ s) :
    pySplit sep s = [s] := by
  induction s with
  | nil => rfl
  | cons c rest ih =>
    simp only [List.mem_cons, not_or] at h
    simp only [pySplit]
    rw [if_neg (fun hc => h.1 hc.symm)]
    rw [ih h.2]

/-- Splitting `a ++ sep :: b` where `a` is separator-free peels off `a`. -/
theorem pySplit_append_cons {sep : Char} {a : Str} (b : Str) (h : sep ∉ a) :
    pySplit sep (a ++ sep :: b) = a :: pySplit sep b := by
  induction a with
  | nil => simp [pySplit]
  | cons c rest ih =>
    simp only [List.mem_cons, not_or] at h
    simp only [List.cons_append, pySplit]
    rw [if_neg (fun hc => h.1 hc.symm)]
    rw [show rest.append (sep :: b) = rest ++ sep :: b from rfl, ih h.2]

/-! ### Lemmas for the decoder -/

theorem length_le_numCols {tbl : List (List (Option Str))} {r : List (Option Str)}
    (h : r ∈ tbl) : r.length ≤ numCols tbl := by
  induction tbl with
  | nil => cases h
  | cons a t ih =>
    rcases List.mem_cons.mp h with rfl | h'
    · exact Nat.le_max_left _ _
    · exact Nat.le_trans (ih h') (Nat.le_max_right _ _)

theorem parts_le_colWidth {tbl : List (List (Option Str))} {r : List (Option Str)}
    {j : Nat} {s : Str} (hr : r ∈ tbl) (hc : r.getD j none = some s) :
    (partsOf s).length ≤ colWidth tbl j := by
  induction tbl with
  | nil => cases hr
  | cons a t ih =>
    rcases List.mem_cons.mp hr with rfl | h'
    · simp only [colWidth, List.foldr_cons, hc]
      exact Nat.le_max_left _ _
    · exact Nat.le_trans (ih h') (Nat.le_max_right _ _)

theorem cellAt_eq {tbl : List (List (Option Str))} {i : Nat}
    {r : List (Option Str)} (h : tbl.get? i = some r) (j : Nat) :
    cellAt tbl i j = r.getD j none := by
  unfold cellAt
  rw [h]
  rfl

/-- `filterMap` over `range n` of a function supported on a single index. -/
theorem filterMap_range_single {β : Type} (h : Nat → Option β) (i n : Nat)
    (hk : ∀ k, k ≠ i → h k = none) :
    (List.range n).filterMap h = if i < n then (h i).toList else [] := by
  induction n with
  | zero => simp
  | succ n ih =>
    rw [List.range_succ, List.filterMap_append, ih]
    by_cases hin : i < n
    · have hne : n ≠ i := by omega
      simp [hin, hk n hne, Nat.lt_succ_of_lt hin]
    · by_cases hieq : i = n
      · subst hieq
        rw [if_neg hin, if_pos (Nat.lt_succ_self i)]
        cases hn : h i <;> simp [hn]
      · have hns : ¬ i < n + 1 := by omega
        have hne : n ≠ i := fun hh => hieq hh.symm
        simp [hin, hns, hk n hne]

/-- Row `i`'s contribution to one column's matches, after the `groupby` filter
and value projection. -/
theorem colMatches_vals (key : Str) (tbl : List (List (Option Str))) (j i : Nat)
    (hi : i < tbl.length) :
    ((colMatches key tbl j).filter (fun p => p.1 = i)).filterMap (fun p => p.2)
      = ((matchVal key (cellAt tbl i j)).bind id).toList := by
  unfold colMatches
  rw [List.filter_filterMap]
  rw [filterMap_range_single
        (fun i' => Option.filter (fun p => decide (p.1 = i))
          ((matchVal key (cellAt tbl i' j)).map (fun v => (i', v)))) i tbl.length
        ?notI]
  case notI =>
    intro k hk
    cases hm : matchVal key (cellAt tbl k j) with
    | none => simp [hm]
    | some v => simp [hm, Option.filter, hk]
  rw [if_pos hi]
  cases hm : matchVal key (cellAt tbl i j) with
  | none => simp [hm]
  | some v => cases v <;> simp [hm, Option.filter]

theorem filterMap_cons_toList {α β : Type} (f : α → Option β) (a : α) (l : List α) :
    List.filterMap f (a :: l) = (f a).toList ++ List.filterMap f l := by
  cases h : f a <;> simp [List.filterMap_cons, h]

/-- Column-major collection followed by the per-row `groupby` equals a
row-major traversal of the given columns. -/
theorem vals_of_cols (key : Str) (tbl : List (List (Option Str))) (i : Nat)
    (hi : i < tbl.length) (cols : List Nat) :
    (((cols.map (colMatches key tbl)).flatten.filter
        (fun p => p.1 = i)).filterMap (fun p => p.2))
      = cols.filterMap (fun j => (matchVal key (cellAt tbl i j)).bind id) := by
  induction cols with
  | nil => simp
  | cons j rest ih =>
    rw [List.map_cons, List.flatten_cons, List.filter_append, List.filterMap_append,
      ih, colMatches_vals key tbl j i hi, filterMap_cons_toList]

/-- Filtering a traversal list is harmless when the function vanishes on the
dropped elements. -/
theorem filterMap_filter_of_none {β : Type} {f : Nat → Option β} {p : Nat → Bool}
    (l : List Nat) (h : ∀ a ∈ l, p a = false → f a = none) :
    (l.filter p).filterMap f = l.filterMap f := by
  induction l with
  | nil => rfl
  | cons a t ih =>
    have ht : ∀ b ∈ t, p b = false → f b = none := fun b hb => h b (List.mem_cons_of_mem a hb)
    cases hp : p a with
    | true => simp [List.filter_cons, hp, List.filterMap_cons, ih ht]
    | false =>
      have := h a (List.mem_cons_self a t) hp
      simp [List.filter_cons, hp, List.filterMap_cons, this, ih ht]

/-- A traversal over `range m` shrinks to `range n` when the function
vanishes from `n` on. -/
theorem filterMap_range_of_ge {β : Type} {f : Nat → Option β} {m n : Nat}
    (hmn : n ≤ m) (h : ∀ k, n ≤ k → f k = none) :
    (List.range m).filterMap f = (List.range n).filterMap f := by
  induction m with
  | zero =>
    have : n = 0 := Nat.le_zero.mp hmn
    rw [this]
  | succ m ih =>
    by_cases hn : n = m + 1
    · rw [hn]
    · have hn' : n ≤ m := by omega
      rw [List.range_succ, List.filterMap_append, ih hn']
      simp [h m hn']

/-- A positional traversal over `range l.length` via `getD` is a direct
traversal of `l`. -/
theorem filterMap_range_getD {α β : Type} (g : Option α → Option β) :
    ∀ l : List (Option α),
      (List.range l.length).filterMap (fun j => g (l.getD j none)) = l.filterMap g := by
  intro l
  induction l with
  | nil => rfl
  | cons a t ih =>
    rw [List.length_cons, List.range_succ_eq_map, List.filterMap_cons,
      List.filterMap_map]
    have : ((fun j => g ((a :: t).getD j none)) ∘ Nat.succ)
        = fun j => g (t.getD j none) := by
      funext j
      rfl
    rw [this, ih]
    cases hg : g ((a :: t).getD 0 none) with
    | none => simp [List.getD] at hg; simp [List.filterMap_cons, hg]
    | some b => simp [List.getD] at hg; simp [List.filterMap_cons, hg]

/-- The consolidated value computed for row `i` through the column-major
pipeline equals the row-local reference semantics. -/
theorem consolidate_allMatches (key : Str) (rows : List Str) (i : Nat) (attr : Str)
    (ha : rows.get? i = some attr) :
    consolidate (allMatches key (rows.map rowSlots)) i
      = if rowKeyValues key attr = [] then none
        else some (joinComma (rowKeyValues key attr)) := by
  have hlen : i < rows.length := (List.get?_eq_some.mp ha).1
  have hi : i < (rows.map rowSlots).length := by
    rw [List.length_map]
    exact hlen
  have hti : (rows.map rowSlots).get? i = some (rowSlots attr) := by
    rw [List.get?_map, ha]
    rfl
  have hmem : rowSlots attr ∈ rows.map rowSlots := List.get?_mem hti
  unfold consolidate allMatches keptCols
  rw [vals_of_cols key (rows.map rowSlots) i hi]
  rw [filterMap_filter_of_none (List.range (numCols (rows.map rowSlots))) ?hkept]
  case hkept =>
    intro j _ hjf
    have hcell : cellAt (rows.map rowSlots) i j = none := by
      rw [cellAt_eq hti]
      have hall := List.any_eq_false.mp hjf (rowSlots attr) hmem
      cases hc : (rowSlots attr).getD j none with
      | none => rfl
      | some s =>
        rw [hc] at hall
        simp at hall
    rw [hcell]
    rfl
  rw [filterMap_range_of_ge (length_le_numCols hmem) ?hbeyond]
  case hbeyond =>
    intro k hk
    have hcell : cellAt (rows.map rowSlots) i k = none := by
      rw [cellAt_eq hti]
      exact List.getD_eq_default _ _ hk
    rw [hcell]
    rfl
  have hcells : (fun j => (matchVal key (cellAt (rows.map rowSlots) i j)).bind id)
      = fun j => (matchVal key ((rowSlots attr).getD j none)).bind id := by
    funext j
    rw [cellAt_eq hti]
  rw [hcells, filterMap_range_getD (fun c => (matchVal key c).bind id) (rowSlots attr)]
  rfl

/-- Shape of a successful `build_key_value_column` result. -/
theorem build_ok_shape {key : Str} {rows : List Str} {res : List (Option Str)}
    (h : build_key_value_column key rows = Except.ok res) :
    res = (List.range rows.length).map
      (consolidate (allMatches key (rows.map rowSlots))) := by
  unfold build_key_value_column at h
  split at h
  · split at h
    · cases h
      rw [List.length_map]
    · exact Except.noConfusion h
  · exact Except.noConfusion h

/-- Per-row projection of a successful `build_key_value_column` result. -/
theorem build_ok_get {key : Str} {rows : List Str} {res : List (Option Str)}
    (h : build_key_value_column key rows = Except.ok res) {i : Nat}
    (hi : i < rows.length) :
    res.get? i = some (consolidate (allMatches key (rows.map rowSlots)) i) := by
  rw [build_ok_shape h, List.get?_map, List.get?_range hi]
  rfl

/-! ### Claims C4, C5, C6 (AttributeColumnDecoder) -/

/-- C4: for every decoded row and every requested key, the generated column
holds either the missing-value sentinel (`none`) or the comma-joined,
first-seen-order concatenation of exactly the values appearing for that key
in the row's original attribute string. -/
theorem C4_decoded_key_values (key : Str) (rows : List Str)
    (res : List (Option Str)) (i : Nat) (attr : Str)
    (h : build_key_value_column key rows = Except.ok res)
    (ha : rows.get? i = some attr) :
    res.get? i = some (if rowKeyValues key attr = [] then none
        else some (joinComma (rowKeyValues key attr))) := by
  have hlen : i < rows.length := (List.get?_eq_some.mp ha).1
  rw [build_ok_get h hlen, consolidate_allMatches key rows i attr ha]

theorem C4_witness :
    ([some ("a,b".data), none] : List (Option Str)).get? 0
      = some (if rowKeyValues ("tag".data) ("gene_id G1.1;tag a;tag b".data) = []
          then none
          else some (joinComma
            (rowKeyValues ("tag".data) ("gene_id G1.1;tag a;tag b".data)))) :=
  C4_decoded_key_values ("tag".data)
    [("gene_id G1.1;tag a;tag b".data), ("x 1".data)]
    [some ("a,b".data), none] 0 ("gene_id G1.1;tag a;tag b".data)
    (by rfl) (by rfl)

/-- C5, counterexample: the level-2 split of a slot is applied at every
occurrence of the field delimiter, not once — for the slot `'k a b'` the
remainder `'a b'` is not kept intact as the value (the value column holds at
most `'a'`), and the decode aborts instead of producing a `(key, value)`
pair. -/
theorem C5_counterexample :
    pySplit ' ' ("k a b".data) = ["k".data, "a".data, "b".data] ∧
    valOf ("k a b".data) = some ("a".data) ∧
    build_key_value_column ("k".data) [("k a b".data)] = Except.error () :=
  ⟨rfl, rfl, rfl⟩

/-- C5 as amended: each slot is split at every occurrence of the field
delimiter; a slot whose value itself contains the delimiter produces three
or more fields and makes the decode of the table fail (pandas rename
`ValueError`), rather than keeping the remainder intact as the value. -/
theorem C5_slot_overflow_aborts (key : Str) (rows : List Str) (i j : Nat)
    (attr s : Str) (ha : rows.get? i = some attr)
    (hs : (rowSlots attr).get? j = some (some s))
    (h3 : 3 ≤ (partsOf s).length) :
    build_key_value_column key rows = Except.error () := by
  have hti : (rows.map rowSlots).get? i = some (rowSlots attr) := by
    rw [List.get?_map, ha]
    rfl
  have hmem : rowSlots attr ∈ rows.map rowSlots := List.get?_mem hti
  have hj : j < (rowSlots attr).length := (List.get?_eq_some.mp hs).1
  have hgd : (rowSlots attr).getD j none = some s := by
    rw [List.getD_eq_getElem?_getD, ← List.get?_eq_getElem?, hs]
    rfl
  have hwidth : colWidth (rows.map rowSlots) j ≠ 2 := by
    have := parts_le_colWidth hmem hgd
    omega
  have hmemk : j ∈ keptCols (rows.map rowSlots) := by
    apply List.mem_filter.mpr
    refine ⟨List.mem_range.mpr (Nat.lt_of_lt_of_le hj (length_le_numCols hmem)), ?_⟩
    apply List.any_eq_true.mpr
    exact ⟨rowSlots attr, hmem, by rw [hgd]; rfl⟩
  have hall : ¬ ((keptCols (rows.map rowSlots)).all
      (fun j => colWidth (rows.map rowSlots) j = 2) = true) := by
    intro hall
    have := List.all_eq_true.mp hall j hmemk
    simp only [decide_eq_true_eq] at this
    exact hwidth this
  unfold build_key_value_column
  rw [if_neg hall]

theorem C5_witness :
    build_key_value_column ("q".data) [("k a b".data)] = Except.error () :=
  C5_slot_overflow_aborts ("q".data) [("k a b".data)] 0 0 ("k a b".data)
    ("k a b".data) (by rfl) (by rfl) (by decide)

/-- C6, counterexample: one malformed row (a slot splitting into three
fields) aborts the whole decode — the well-formed row 0 is lost too — so
degradation is not row-local and processing does not continue. -/
theorem C6_counterexample :
    build_key_value_column ("k".data) [("k v".data)] = Except.ok [some ("v".data)] ∧
    build_key_value_column ("k".data) [("k v".data), ("k a b".data)]
      = Except.error () :=
  ⟨rfl, rfl⟩

/-- C6 as amended: row-local degradation (affected key columns become the
sentinel, the row is retained) holds only on tables the decoder accepts;
whenever the decode succeeds, every row is retained and a row without
values for the key gets the missing-value sentinel, but a single row whose
slot splits into more than two fields aborts the entire decode instead. -/
theorem C6_rows_retained_on_success (key : Str) (rows : List Str)
    (res : List (Option Str))
    (h : build_key_value_column key rows = Except.ok res) :
    res.length = rows.length ∧
      ∀ i attr, rows.get? i = some attr → rowKeyValues key attr = [] →
        res.get? i = some none := by
  constructor
  · rw [build_ok_shape h, List.length_map, List.length_range]
  · intro i attr ha hnil
    have hlen : i < rows.length := (List.get?_eq_some.mp ha).1
    rw [build_ok_get h hlen, consolidate_allMatches key rows i attr ha, if_pos hnil]

theorem C6_witness :
    ([some ("v".data), none] : List (Option Str)).get? 1 = some none :=
  (C6_rows_retained_on_success ("k".data) [("k v".data), ("x 1".data)]
    [some ("v".data), none] (by rfl)).2 1 ("x 1".data) (by rfl) (by rfl)

/-! ### Lemmas for the TripleEmitter -/

theorem get_ensembl_version_no_dot {s : Str} (h : '.' ∉ s) :
    get_ensembl_version s = none := by
  unfold get_ensembl_version
  rw [pySplit_not_mem h]
  rfl

theorem get_ensembl_version_split {b v : Str} (hb : '.' ∉ b) (hv : '.' ∉ v) :
    get_ensembl_version (b ++ '.' :: v) = some v := by
  unfold get_ensembl_version
  rw [pySplit_append_cons v hb, pySplit_not_mem hv]
  rfl

theorem stripped_ensembl_id_split {b v : Str} (hb : '.' ∉ b) :
    stripped_ensembl_id (b ++ '.' :: v) = b := by
  unfold stripped_ensembl_id
  rw [pySplit_append_cons v hb]
  rfl

theorem lookupEdge_of_none {vocab : List VocabNode} {s p l : Str}
    (h : vsLookup vocab l = none) : lookupEdge vocab s p l = [] := by
  unfold lookupEdge
  rw [h]

theorem filter_lookupEdge_of_ne {vocab : List VocabNode} {s p l q : Str}
    (hpq : p ≠ q) :
    (lookupEdge vocab s p l).filter (fun e => e.predicate = q) = [] := by
  unfold lookupEdge
  cases vsLookup vocab l with
  | none => rfl
  | some o =>
    split
    · simp [hpq]
    · rfl

theorem filter_not_lookupEdge {vocab : List VocabNode} {s p l : Str} :
    (lookupEdge vocab s p l).filter (fun e => ¬ e.predicate = p) = [] := by
  unfold lookupEdge
  cases vsLookup vocab l with
  | none => rfl
  | some o =>
    split
    · simp
    · rfl

theorem filter_pred_if_block {c : Prop} [Decidable c] {xs : List Edge} {q : Str}
    (h : xs.filter (fun e => e.predicate = q) = []) :
    (if c then xs else []).filter (fun e => e.predicate = q) = [] := by
  split
  · exact h
  · rfl

theorem filter_singleton_pred_ne {s p o q : Str} (hpq : p ≠ q) :
    ([⟨s, p, o⟩] : List Edge).filter (fun e => e.predicate = q) = [] := by
  simp [hpq]

theorem filter_pgo_pred_ne {s p q : Str} {l : List Str} (hpq : p ≠ q) :
    ((l.map (fun pgo => (⟨s, p, pgo⟩ : Edge))).filter
      (fun e => e.predicate = q)) = [] := by
  induction l with
  | nil => rfl
  | cons a t ih => simp [hpq, ih]

theorem vsLookup_mem {vocab : List VocabNode} {l o : Str}
    (h : vsLookup vocab l = some o) : o ∈ vocab.map VocabNode.node_id := by
  unfold vsLookup at h
  cases hf : vocab.filter (fun n => n.node_label = l) with
  | nil => rw [hf] at h; cases h
  | cons n t =>
    rw [hf] at h
    simp only [List.head?_cons, Option.map_some'] at h
    have hn : n ∈ vocab := by
      have : n ∈ vocab.filter (fun n => n.node_label = l) := by
        rw [hf]
        exact List.mem_cons_self n t
      exact (List.mem_filter.mp this).1
    cases h
    exact List.mem_map.mpr ⟨n, hn, rfl⟩

theorem lookupEdge_some {vocab : List VocabNode} {s p l o : Str}
    (hv : vsLookup vocab l = some o) :
    lookupEdge vocab s p l = if o ≠ [] then [(⟨s, p, o⟩ : Edge)] else [] := by
  unfold lookupEdge
  rw [hv]

theorem mem_if_block {c : Prop} [Decidable c] {xs : List Edge} {e : Edge}
    (he : e ∈ (if c then xs else [])) : e ∈ xs := by
  split at he
  · exact he
  · cases he

theorem pred_of_mem_pgo {s p : Str} {l : List Str} {e : Edge}
    (he : e ∈ l.map (fun pgo => (⟨s, p, pgo⟩ : Edge))) : e.predicate = p := by
  obtain ⟨pgo, _, rfl⟩ := List.mem_map.mp he
  rfl

theorem pred_of_mem_singleton {s p o : Str} {e : Edge}
    (he : e ∈ ([⟨s, p, o⟩] : List Edge)) : e.predicate = p := by
  rw [List.mem_singleton.mp he]

theorem mem_lookupEdge {vocab : List VocabNode} {s p l : Str} {e : Edge}
    (he : e ∈ lookupEdge vocab s p l) :
    e.object ∈ vocab.map VocabNode.node_id := by
  cases hv : vsLookup vocab l with
  | none =>
    rw [lookupEdge_of_none hv] at he
    cases he
  | some o =>
    rw [lookupEdge_some hv] at he
    have heq : e = ⟨s, p, o⟩ := List.mem_singleton.mp (mem_if_block he)
    rw [heq]
    exact vsLookup_mem hv

/-! ### Claims C1, C2, C3 (TripleEmitter) -/

/-- C1, counterexample: a versioned RefSeq accession is emitted verbatim —
the edge object keeps the `.2` suffix, and the version-stripped canonical
form predicted by the claim is never emitted.  Version stripping is not
applied to every identifier class. -/
theorem C1_counterexample :
    (⟨"ENSEMBL:T1".data, "has_refSeq_ID".data, "REFSEQ:NM_1.2".data⟩ : Edge)
        ∈ edgeRows [] [c1row] ∧
    (⟨"ENSEMBL:T1".data, "has_refSeq_ID".data, "REFSEQ:NM_1".data⟩ : Edge)
        ∉ edgeRows [] [c1row] := by
  exact ⟨by decide, by decide⟩

/-- C1 as amended: the trailing dotted version suffix is stripped only from
Ensembl gene/transcript identifiers, whose canonical ID is
`ENSEMBL:ACCESSION` with the version retained as the node's value field
(for `ENSG1.2`: `ENSEMBL:ENSG1` with value `2`); RefSeq and UniProt
accessions are emitted verbatim, with no stripping and no separate version
attribute. -/
theorem C1_version_strip_ensembl_only (vocab : List VocabNode) (row : Row)
    (b v : Str) (hgid : row.gene_id = b ++ '.' :: v)
    (hb : '.' ∉ b) (hv : '.' ∉ v) :
    (mkGeneNode row).map NodeRow.node_id = some ("ENSEMBL:".data ++ b) ∧
    (mkGeneNode row).map NodeRow.value = some v ∧
    (row.RefSeq_RNA_id ≠ [] →
      (⟨featureSubject row, "has_refSeq_ID".data,
        "REFSEQ:".data ++ row.RefSeq_RNA_id⟩ : Edge)
        ∈ featureRowEdges vocab row) ∧
    (row.UNIPROTKB_TrEMBL_AN ≠ [] →
      (⟨"ENSEMBL:".data ++ stripped_ensembl_id row.transcript_id,
        RO_has_gene_product,
        "UNIPROTKB:".data ++ row.UNIPROTKB_TrEMBL_AN⟩ : Edge)
        ∈ transcriptRowEdges row) := by
  refine ⟨?_, ?_, ?_, ?_⟩
  · unfold mkGeneNode
    rw [hgid, get_ensembl_version_split hb hv, Option.map_some', Option.map_some']
    simp [stripped_ensembl_id_split hb]
  · unfold mkGeneNode
    rw [hgid, get_ensembl_version_split hb hv, Option.map_some', Option.map_some']
  · intro hrna
    simp [featureRowEdges, hrna]
  · intro htr
    simp [transcriptRowEdges, htr]

theorem C1_witness :
    (mkGeneNode c1geneRow).map NodeRow.node_id
        = some ("ENSEMBL:".data ++ "ENSG1".data) ∧
    (mkGeneNode c1geneRow).map NodeRow.value = some ("2".data) ∧
    (c1geneRow.RefSeq_RNA_id ≠ [] →
      (⟨featureSubject c1geneRow, "has_refSeq_ID".data,
        "REFSEQ:".data ++ c1geneRow.RefSeq_RNA_id⟩ : Edge)
        ∈ featureRowEdges [] c1geneRow) ∧
    (c1geneRow.UNIPROTKB_TrEMBL_AN ≠ [] →
      (⟨"ENSEMBL:".data ++ stripped_ensembl_id c1geneRow.transcript_id,
        RO_has_gene_product,
        "UNIPROTKB:".data ++ c1geneRow.UNIPROTKB_TrEMBL_AN⟩ : Edge)
        ∈ transcriptRowEdges c1geneRow) :=
  C1_version_strip_ensembl_only [] c1geneRow ("ENSG1".data) ("2".data)
    (by decide) (by decide) (by decide)

/-- C2, counterexample: the `has_gene_product` edge for a SwissProt
cross-reference carries the endpoint `UNINPROTKB:P1`, which is neither a
node_id of this run's node table nor a node_id of the GENCODE_VS table —
yet the edge is emitted, not skipped. -/
theorem C2_counterexample :
    (⟨"ENSEMBL:T1".data, RO_has_gene_product, "UNINPROTKB:P1".data⟩ : Edge)
        ∈ edgeRows c2vocab [c2row] ∧
    (write_nodes_file [c2row]).map (List.map NodeRow.node_id)
        = some ["ENSEMBL:T1".data] ∧
    "UNINPROTKB:P1".data ∉ ["ENSEMBL:T1".data] ∧
    "UNINPROTKB:P1".data ∉ c2vocab.map VocabNode.node_id := by
  exact ⟨by decide, by rfl, by decide, by decide⟩

/-- C2 as amended: only the vocabulary-resolved sub-rules (located_in,
is_feature_type, the two biotypes, has-directional-form) guarantee their
object is a GENCODE_VS node_id (and skip the edge otherwise);
cross-reference endpoints (UniProt gene products, pseudogene-ontology
codes, RefSeq IDs) are emitted verbatim with no membership requirement. -/
theorem C2_vocabulary_endpoints_resolved (vocab : List VocabNode) (row : Row)
    (e : Edge) (he : e ∈ featureRowEdges vocab row)
    (hp : e.predicate = RO_located_in ∨ e.predicate = "is_feature_type".data ∨
      e.predicate = "is_gene_biotype".data ∨
      e.predicate = "is_transcript_biotype".data ∨
      e.predicate = RO_has_directional_form) :
    e.object ∈ vocab.map VocabNode.node_id := by
  unfold featureRowEdges at he
  simp only [List.mem_append] at he
  rcases he with (((((((he | he) | he) | he) | he) | he) | he) | he)
  · exact mem_lookupEdge he
  · exact mem_lookupEdge he
  · exact mem_lookupEdge (mem_if_block he)
  · exact mem_lookupEdge (mem_if_block he)
  · exact mem_lookupEdge (mem_if_block he)
  · rw [pred_of_mem_pgo (mem_if_block he)] at hp
    rcases hp with h | h | h | h | h <;> exact absurd h (by decide)
  · rw [pred_of_mem_singleton (mem_if_block he)] at hp
    rcases hp with h | h | h | h | h <;> exact absurd h (by decide)
  · rw [pred_of_mem_singleton (mem_if_block he)] at hp
    rcases hp with h | h | h | h | h <;> exact absurd h (by decide)

theorem C2_witness :
    "GENCODEVS:C1".data ∈ c2vocab.map VocabNode.node_id :=
  C2_vocabulary_endpoints_resolved c2vocab c2row
    ⟨"ENSEMBL:T1".data, RO_located_in, "GENCODEVS:C1".data⟩
    (by decide) (Or.inl (by decide))

/-- C3: per-row edge sub-rules fail closed and locally.  Formalised for the
claim's exemplar instances: (1) an unresolved chromosome lookup emits no
`located_in` edge for the row; (2) the row's non-`located_in` edges are
unaffected by the chromosome label (so every other sub-rule still emits its
edge when its own conditions hold); (3) an empty gene-biotype field emits
no `is_gene_biotype` edge for any row. -/
theorem C3_subrule_locality (vocab : List VocabNode) (row : Row)
    (h : vsLookup vocab row.chromosome_name = none) :
    (featureRowEdges vocab row).filter
        (fun e => e.predicate = RO_located_in) = [] ∧
    (∀ c, (featureRowEdges vocab { row with chromosome_name := c }).filter
        (fun e => ¬ e.predicate = RO_located_in)
      = (featureRowEdges vocab row).filter
        (fun e => ¬ e.predicate = RO_located_in)) ∧
    (∀ r : Row, r.gene_type = [] →
      (featureRowEdges vocab r).filter
        (fun e => e.predicate = "is_gene_biotype".data) = []) := by
  refine ⟨?_, ?_, ?_⟩
  · unfold featureRowEdges
    rw [lookupEdge_of_none h]
    rw [List.filter_append, List.filter_append, List.filter_append,
      List.filter_append, List.filter_append, List.filter_append,
      List.filter_append]
    rw [filter_lookupEdge_of_ne
        (show ("is_feature_type".data : Str) ≠ RO_located_in by decide)]
    rw [filter_pred_if_block (filter_lookupEdge_of_ne
        (show ("is_gene_biotype".data : Str) ≠ RO_located_in by decide))]
    rw [filter_pred_if_block (filter_lookupEdge_of_ne
        (show ("is_transcript_biotype".data : Str) ≠ RO_located_in by decide))]
    rw [filter_pred_if_block (filter_lookupEdge_of_ne
        (show RO_has_directional_form ≠ RO_located_in by decide))]
    rw [filter_pred_if_block (filter_pgo_pred_ne
        (show ("subClassOf".data : Str) ≠ RO_located_in by decide))]
    rw [filter_pred_if_block (filter_singleton_pred_ne
        (show ("has_refSeq_ID".data : Str) ≠ RO_located_in by decide))]
    rw [filter_pred_if_block (filter_singleton_pred_ne
        (show ("has_refSeq_ID".data : Str) ≠ RO_located_in by decide))]
    rfl
  · intro c
    unfold featureRowEdges
    rw [List.filter_append, List.filter_append, List.filter_append,
      List.filter_append, List.filter_append, List.filter_append,
      List.filter_append, List.filter_append, List.filter_append,
      List.filter_append, List.filter_append, List.filter_append,
      List.filter_append, List.filter_append]
    rw [filter_not_lookupEdge, filter_not_lookupEdge]
    rfl
  · intro r hr
    unfold featureRowEdges
    rw [List.filter_append, List.filter_append, List.filter_append,
      List.filter_append, List.filter_append, List.filter_append,
      List.filter_append]
    rw [filter_lookupEdge_of_ne
        (show RO_located_in ≠ ("is_gene_biotype".data : Str) by decide)]
    rw [filter_lookupEdge_of_ne
        (show ("is_feature_type".data : Str) ≠ ("is_gene_biotype".data : Str)
          by decide)]
    rw [hr]
    rw [filter_pred_if_block (filter_lookupEdge_of_ne
        (show ("is_transcript_biotype".data : Str) ≠ ("is_gene_biotype".data : Str)
          by decide))]
    rw [filter_pred_if_block (filter_lookupEdge_of_ne
        (show RO_has_directional_form ≠ ("is_gene_biotype".data : Str) by decide))]
    rw [filter_pred_if_block (filter_pgo_pred_ne
        (show ("subClassOf".data : Str) ≠ ("is_gene_biotype".data : Str) by decide))]
    rw [filter_pred_if_block (filter_singleton_pred_ne
        (show ("has_refSeq_ID".data : Str) ≠ ("is_gene_biotype".data : Str)
          by decide))]
    rw [filter_pred_if_block (filter_singleton_pred_ne
        (show ("has_refSeq_ID".data : Str) ≠ ("is_gene_biotype".data : Str)
          by decide))]
    simp

theorem C3_witness :
    (featureRowEdges [] blankRow).filter
        (fun e => e.predicate = RO_located_in) = [] :=
  (C3_subrule_locality [] blankRow (by rfl)).1

theorem dedupBy_singleton {α β : Type} [DecidableEq β] (f : α → β) (a : α) :
    dedupBy f [a] = [a] := by
  simp [dedupBy, dedupByGo]

theorem dedupBy_pair {α β : Type} [DecidableEq β] (f : α → β) (a b : α)
    (h : f b ≠ f a) : dedupBy f [a, b] = [a, b] := by
  simp [dedupBy, dedupByGo, h]

theorem filter_transcribed_transcriptRowEdges (r : Row) :
    (transcriptRowEdges r).filter (fun e => e.predicate = RO_transcribed_from)
      = [⟨"ENSEMBL:".data ++ stripped_ensembl_id r.transcript_id,
          RO_transcribed_from,
          "ENSEMBL:".data ++ stripped_ensembl_id r.gene_id⟩] := by
  unfold transcriptRowEdges
  rw [List.filter_cons, List.filter_append]
  rw [filter_pred_if_block (filter_singleton_pred_ne
      (show RO_has_gene_product ≠ RO_transcribed_from by decide))]
  rw [filter_pred_if_block (filter_singleton_pred_ne
      (show RO_has_gene_product ≠ RO_transcribed_from by decide))]
  simp

theorem filter_transcribed_featureRowEdges (vocab : List VocabNode) (row : Row) :
    (featureRowEdges vocab row).filter
      (fun e => e.predicate = RO_transcribed_from) = [] := by
  unfold featureRowEdges
  rw [List.filter_append, List.filter_append, List.filter_append,
    List.filter_append, List.filter_append, List.filter_append,
    List.filter_append]
  rw [filter_lookupEdge_of_ne (show RO_located_in ≠ RO_transcribed_from by decide)]
  rw [filter_lookupEdge_of_ne
      (show ("is_feature_type".data : Str) ≠ RO_transcribed_from by decide)]
  rw [filter_pred_if_block (filter_lookupEdge_of_ne
      (show ("is_gene_biotype".data : Str) ≠ RO_transcribed_from by decide))]
  rw [filter_pred_if_block (filter_lookupEdge_of_ne
      (show ("is_transcript_biotype".data : Str) ≠ RO_transcribed_from by decide))]
  rw [filter_pred_if_block (filter_lookupEdge_of_ne
      (show RO_has_directional_form ≠ RO_transcribed_from by decide))]
  rw [filter_pred_if_block (filter_pgo_pred_ne
      (show ("subClassOf".data : Str) ≠ RO_transcribed_from by decide))]
  rw [filter_pred_if_block (filter_singleton_pred_ne
      (show ("has_refSeq_ID".data : Str) ≠ RO_transcribed_from by decide))]
  rw [filter_pred_if_block (filter_singleton_pred_ne
      (show ("has_refSeq_ID".data : Str) ≠ RO_transcribed_from by decide))]
  rfl

theorem filter_flatten_nil {p : Edge → Bool} {L : List (List Edge)}
    (h : ∀ x ∈ L, x.filter p = []) : L.flatten.filter p = [] := by
  induction L with
  | nil => rfl
  | cons a t ih =>
    rw [List.flatten_cons, List.filter_append, h a (List.mem_cons_self a t),
      ih (fun x hx => h x (List.mem_cons_of_mem a hx))]
    rfl

/-! ### Claims C7, C8, C9, C10 -/

/-- C7, counterexample: an input consisting of exactly two transcript rows
sharing gene_id `G1` (distinct transcript_ids) yields the two
`transcribed_from` edges but zero gene nodes — gene nodes are only emitted
from rows of feature type `gene`, so "exactly one gene node" fails. -/
theorem C7_counterexample :
    (write_nodes_file [c7t1, c7t2]).map
        (fun ns => (ns.filter (fun n => n.node_id = "ENSEMBL:G1".data)).length)
      = some 0 ∧
    (edgeRows [] [c7t1, c7t2]).filter
        (fun e => e.predicate = RO_transcribed_from)
      = [⟨"ENSEMBL:T1".data, RO_transcribed_from, "ENSEMBL:G1".data⟩,
         ⟨"ENSEMBL:T2".data, RO_transcribed_from, "ENSEMBL:G1".data⟩] := by
  exact ⟨by rfl, by rfl⟩

/-- C7 as amended: for an input whose transcript rows are exactly two rows
sharing (stripped) gene id `G1`, with transcript ids distinct after version
stripping, exactly two `transcribed_from` edges are emitted, with distinct
transcript subjects and object `ENSEMBL:G1`; and exactly one gene node with
node_id `ENSEMBL:G1` is emitted provided the input's gene rows are exactly
one row whose (versioned) gene id strips to `G1`. -/
theorem C7_two_transcripts_one_gene (vocab : List VocabNode) (df : List Row)
    (r1 r2 rg : Row) (g v : Str)
    (ht : df.filter (fun r => r.feature_type = "transcript".data) = [r1, r2])
    (hg : df.filter (fun r => r.feature_type = "gene".data) = [rg])
    (h1 : stripped_ensembl_id r1.transcript_id
        ≠ stripped_ensembl_id r2.transcript_id)
    (hg1 : stripped_ensembl_id r1.gene_id = g)
    (hg2 : stripped_ensembl_id r2.gene_id = g)
    (hrg : rg.gene_id = g ++ '.' :: v) (hb : '.' ∉ g) (hv : '.' ∉ v) :
    (edgeRows vocab df).filter (fun e => e.predicate = RO_transcribed_from)
      = [⟨"ENSEMBL:".data ++ stripped_ensembl_id r1.transcript_id,
          RO_transcribed_from, "ENSEMBL:".data ++ g⟩,
         ⟨"ENSEMBL:".data ++ stripped_ensembl_id r2.transcript_id,
          RO_transcribed_from, "ENSEMBL:".data ++ g⟩] ∧
    "ENSEMBL:".data ++ stripped_ensembl_id r1.transcript_id
      ≠ "ENSEMBL:".data ++ stripped_ensembl_id r2.transcript_id ∧
    (geneNodes df).map (List.map NodeRow.node_id)
      = some ["ENSEMBL:".data ++ g] := by
  have hfull : r1.transcript_id ≠ r2.transcript_id := fun hh => h1 (by rw [hh])
  refine ⟨?_, ?_, ?_⟩
  · unfold edgeRows
    rw [List.filter_append]
    unfold dftranscript
    rw [ht, dedupBy_pair Row.transcript_id r1 r2 (fun hh => hfull hh.symm)]
    rw [List.map_cons, List.map_cons, List.map_nil, List.flatten_cons,
      List.flatten_cons, List.flatten_nil, List.filter_append,
      List.filter_append]
    rw [filter_transcribed_transcriptRowEdges r1,
      filter_transcribed_transcriptRowEdges r2]
    have hfeat : ((df.map (featureRowEdges vocab)).flatten).filter
        (fun e => e.predicate = RO_transcribed_from) = [] := by
      apply filter_flatten_nil
      intro x hx
      obtain ⟨r, _, rfl⟩ := List.mem_map.mp hx
      exact filter_transcribed_featureRowEdges vocab r
    rw [hfeat, hg1, hg2]
    rfl
  · intro hh
    exact h1 (List.append_cancel_left hh)
  · unfold geneNodes dfgene
    rw [hg, dedupBy_singleton]
    have hn : mkGeneNode rg
        = some ⟨"ENSEMBL:".data ++ g, "GENCODE".data, pyStrip rg.gene_name,
            [], [], (if rg.hgnc_id ≠ [] then rg.hgnc_id else []), v,
            intToStr rg.genomic_start_location,
            intToStr rg.genomic_end_location, []⟩ := by
      unfold mkGeneNode
      rw [hrg, get_ensembl_version_split hb hv, Option.map_some',
        stripped_ensembl_id_split hb]
    rw [show (mapOpt mkGeneNode [rg] : Option (List NodeRow))
        = (mkGeneNode rg).map (fun b => [b]) from by
      cases hmk : mkGeneNode rg <;> simp [mapOpt, hmk]]
    rw [hn]
    rfl

theorem C7_witness :
    (edgeRows [] [c7t1, c7t2, c7g]).filter
        (fun e => e.predicate = RO_transcribed_from)
      = [⟨"ENSEMBL:".data ++ stripped_ensembl_id c7t1.transcript_id,
          RO_transcribed_from, "ENSEMBL:".data ++ "G1".data⟩,
         ⟨"ENSEMBL:".data ++ stripped_ensembl_id c7t2.transcript_id,
          RO_transcribed_from, "ENSEMBL:".data ++ "G1".data⟩] ∧
    "ENSEMBL:".data ++ stripped_ensembl_id c7t1.transcript_id
      ≠ "ENSEMBL:".data ++ stripped_ensembl_id c7t2.transcript_id ∧
    (geneNodes [c7t1, c7t2, c7g]).map (List.map NodeRow.node_id)
      = some ["ENSEMBL:".data ++ "G1".data] :=
  C7_two_transcripts_one_gene [] [c7t1, c7t2, c7g] c7t1 c7t2 c7g
    ("G1".data) ("5".data) (by decide) (by decide) (by decide) (by decide)
    (by decide) (by decide) (by decide) (by decide)

/-- C8: a missing GENCODE_VS node-metadata backing file is fatal — the run
terminates with exit status 1 and a diagnostic naming the missing
prerequisite (`GENCODE_VS`), before any edge or node output is produced. -/
theorem C8_missing_vocabulary_fatal (df : List Row) :
    run_outputs none df = Except.error (1, gencode_vs_missing_msg) ∧
    containsStr ("GENCODE_VS".data) gencode_vs_missing_msg = true :=
  ⟨rfl, rfl⟩

theorem C8_witness :
    run_outputs none [] = Except.error (1, gencode_vs_missing_msg) :=
  (C8_missing_vocabulary_fatal []).1

/-- C9: the pipeline is deterministic — two runs over equal annotation
tables and equal vocabulary tables produce byte-identical edge-list and
node-table outputs (the embedded run is a pure function of those two
inputs, with no other source of variation). -/
theorem C9_deterministic_outputs (vs1 vs2 : Option (List VocabNode))
    (df1 df2 : List Row) (hv : vs1 = vs2) (hd : df1 = df2) :
    run_outputs vs1 df1 = run_outputs vs2 df2 := by
  rw [hv, hd]

theorem C9_witness :
    run_outputs (some c2vocab) [c2row] = run_outputs (some c2vocab) [c2row] :=
  C9_deterministic_outputs (some c2vocab) (some c2vocab) [c2row] [c2row] rfl rfl

theorem mapOpt_eq_none {α β : Type} {f : α → Option β} {l : List α} {x : α}
    (hx : x ∈ l) (hf : f x = none) : mapOpt f l = none := by
  induction l with
  | nil => cases hx
  | cons a t ih =>
    rcases List.mem_cons.mp hx with rfl | hxt
    · unfold mapOpt
      rw [hf]
    · unfold mapOpt
      cases hfa : f a with
      | none => rfl
      | some b =>
        rw [ih hxt]
        rfl

theorem dedupByGo_key_mem {α β : Type} [DecidableEq β] (f : α → β) :
    ∀ (seen : List β) (l : List α) (r : α), r ∈ l → f r ∉ seen →
      ∃ x, x ∈ dedupByGo f seen l ∧ f x = f r := by
  intro seen l
  induction l generalizing seen with
  | nil =>
    intro r hr _
    cases hr
  | cons a t ih =>
    intro r hr hseen
    rcases List.mem_cons.mp hr with rfl | hrt
    · unfold dedupByGo
      rw [if_neg hseen]
      exact ⟨r, List.mem_cons_self _ _, rfl⟩
    · by_cases ha : f a ∈ seen
      · unfold dedupByGo
        rw [if_pos ha]
        exact ih seen r hrt hseen
      · unfold dedupByGo
        rw [if_neg ha]
        by_cases heq : f r = f a
        · exact ⟨a, List.mem_cons_self _ _, heq.symm⟩
        · have hnotin : f r ∉ f a :: seen := by
            intro hmem
            rcases List.mem_cons.mp hmem with h | h
            · exact heq h
            · exact hseen h
          obtain ⟨x, hx, hfx⟩ := ih (f a :: seen) r hrt hnotin
          exact ⟨x, List.mem_cons_of_mem a hx, hfx⟩

theorem dedupBy_key_mem {α β : Type} [DecidableEq β] (f : α → β) {l : List α}
    {r : α} (hr : r ∈ l) : ∃ x, x ∈ dedupBy f l ∧ f x = f r :=
  dedupByGo_key_mem f [] l r hr (by simp)

/-- C10: node emission is total only for versioned identifiers — a gene or
transcript row whose Ensembl ID contains no `.` makes the version
extraction fail (`split('.')[1]` raises `IndexError`, modelled as `none`)
and node-table writing aborts, rather than emitting the node with an empty
version value. -/
theorem C10_unversioned_id_aborts_nodes (df : List Row) (r : Row) (hr : r ∈ df)
    (h : (r.feature_type = "gene".data ∧ '.' ∉ r.gene_id) ∨
         (r.feature_type = "transcript".data ∧ '.' ∉ r.transcript_id)) :
    write_nodes_file df = none ∧
    (('.' ∉ r.gene_id) → get_ensembl_version r.gene_id = none) ∧
    (('.' ∉ r.transcript_id) → get_ensembl_version r.transcript_id = none) := by
  refine ⟨?_, fun hd => get_ensembl_version_no_dot hd,
    fun hd => get_ensembl_version_no_dot hd⟩
  rcases h with ⟨hft, hdot⟩ | ⟨hft, hdot⟩
  · have hmem : r ∈ df.filter (fun x => x.feature_type = "gene".data) :=
      List.mem_filter.mpr ⟨hr, by simp [hft]⟩
    obtain ⟨x, hx, hfx⟩ := dedupBy_key_mem Row.gene_id hmem
    have hmk : mkGeneNode x = none := by
      unfold mkGeneNode
      rw [show x.gene_id = r.gene_id from hfx, get_ensembl_version_no_dot hdot]
      rfl
    have hgn : geneNodes df = none := by
      unfold geneNodes dfgene
      exact mapOpt_eq_none hx hmk
    unfold write_nodes_file
    rw [hgn]
    rfl
  · have hmem : r ∈ df.filter (fun x => x.feature_type = "transcript".data) :=
      List.mem_filter.mpr ⟨hr, by simp [hft]⟩
    obtain ⟨x, hx, hfx⟩ := dedupBy_key_mem Row.transcript_id hmem
    have htn : transcriptNodes df = none := by
      unfold transcriptNodes dftranscript
      apply mapOpt_eq_none hx
      unfold mkTranscriptNode
      rw [show x.transcript_id = r.transcript_id from hfx,
        get_ensembl_version_no_dot hdot]
      rfl
    unfold write_nodes_file
    cases hgn : geneNodes df with
    | none => rfl
    | some gs =>
      rw [htn]
      rfl

theorem C10_witness :
    write_nodes_file [c10row] = none ∧
    (('.' ∉ c10row.gene_id) → get_ensembl_version c10row.gene_id = none) ∧
    (('.' ∉ c10row.transcript_id) →
      get_ensembl_version c10row.transcript_id = none) :=
  C10_unversioned_id_aborts_nodes [c10row] c10row (by decide)
    (Or.inl ⟨by decide, by decide⟩)
